import Mathlib

/-!
Shallow embedding of the pulse synchronization and phrase-prediction engine
(`src/synchronizer/prediction_engine.py` and `src/synchronizer/slot_prior_model.py`).

Python floats are modelled as rationals (`ℚ`), Python ints as `ℤ`/`ℕ`.
`numpy.round` and Python's built-in `round` both round half to even, modelled
by `roundHalfEven`.  `numpy.median` sorts and takes the middle element
(average of the two middle elements for even length), modelled by `npMedian`
over an insertion sort (same sorted sequence of values as numpy's sort).
`numpy.std` is the square root of the population variance; since the square
root of a rational is irrational, canonical events carry the squared spread
(`spreadSq`, the population variance `popVariance`); `spread_ms = 0` in the
source corresponds exactly to `spreadSq = 0` here.
-/

set_option maxRecDepth 100000

namespace DiamondDrip

/-- Banker's rounding: `numpy.round` / Python `round` (round half to even). -/
def roundHalfEven (q : ℚ) : ℤ :=
  let f := ⌊q⌋
  let r := q - (f : ℚ)
  if r < 1/2 then f
  else if 1/2 < r then f + 1
  else if 2 ∣ f then f else f + 1

/-- Truncation toward zero, as Python's `int(...)` applied to a float. -/
def truncQ (q : ℚ) : ℤ :=
  if 0 ≤ q then ⌊q⌋ else ⌈q⌉

/-- Insert into a sorted list (helper for `sortQ`). -/
def insertSorted (x : ℚ) : List ℚ → List ℚ
  | [] => [x]
  | y :: ys => if x ≤ y then x :: y :: ys else y :: insertSorted x ys

/-- Sort a list of rationals ascending (models the sort inside `np.median`). -/
def sortQ (l : List ℚ) : List ℚ := l.foldr insertSorted []

/-- Models `np.median`: middle of the sorted values, average of the two middles for
even length. Defaults to 0 on the empty list (the source never takes the
median of an empty list). -/
def npMedian (l : List ℚ) : ℚ :=
  let s := sortQ l
  let n := l.length
  if n = 0 then 0
  else if n % 2 = 1 then s.getD (n / 2) 0
  else (s.getD (n / 2 - 1) 0 + s.getD (n / 2) 0) / 2

/-- Population variance: the square of `np.std`. -/
def popVariance (l : List ℚ) : ℚ :=
  let n := l.length
  if n = 0 then 0
  else
    let μ := l.sum / (n : ℚ)
    (l.map (fun x => (x - μ) * (x - μ))).sum / (n : ℚ)

/-- Models a `collections.deque` append with a `maxlen` bound: appending to a full
deque evicts the oldest entries from the left. -/
def dequeAppend (maxlen : ℕ) (l : List α) (x : α) : List α :=
  let l' := l ++ [x]
  if maxlen < l'.length then l'.drop (l'.length - maxlen) else l'

/-- Fused canonical event after clustering (`CanonicalEvent` dataclass).
`spreadSq` is the square of the source's `spread_ms` (see file comment). -/
structure CanonicalEvent where
  t_server_ms : ℚ
  dur_ms : ℚ
  conf : ℕ
  spreadSq : ℚ
  contributors : List String
deriving DecidableEq, Repr

/-! ## TempoTracker (`prediction_engine.py` lines 236-300) -/

structure TempoTracker where
  bpm : ℚ
  beat_ms : ℚ
  t_last_beat : Option ℚ
  phase_gain : ℚ
  tempo_gain : ℚ
  min_bpm : ℚ
  max_bpm : ℚ
deriving DecidableEq, Repr

/-- Embeds `TempoTracker.__init__` with the source defaults for the clamp bounds. -/
def TempoTracker.init (initial_bpm phase_gain tempo_gain : ℚ) : TempoTracker :=
  { bpm := initial_bpm
    beat_ms := 60000 / initial_bpm
    t_last_beat := none
    phase_gain := phase_gain
    tempo_gain := tempo_gain
    min_bpm := 60
    max_bpm := 200 }

/-- Embeds `TempoTracker.update`: PLL phase/tempo correction from a canonical event. -/
def TempoTracker.update (tr : TempoTracker) (event : CanonicalEvent) : TempoTracker :=
  let t_e := event.t_server_ms
  match tr.t_last_beat with
  | none => { tr with t_last_beat := some t_e }
  | some tlb =>
    let k : ℤ := roundHalfEven ((t_e - tlb) / tr.beat_ms)
    let t_pred := tlb + (k : ℚ) * tr.beat_ms
    let err := t_e - t_pred
    let tlb' := tlb + tr.phase_gain * err
    if k ≠ 0 then
      let beat1 := tr.beat_ms + tr.tempo_gain * err * (Int.sign k : ℚ)
      let bpm1 := 60000 / beat1
      let bpm2 := max tr.min_bpm (min tr.max_bpm bpm1)
      { tr with t_last_beat := some tlb', bpm := bpm2, beat_ms := 60000 / bpm2 }
    else
      { tr with t_last_beat := some tlb' }

/-- Embeds `TempoTracker.get_slot_ms`. -/
def TempoTracker.get_slot_ms (tr : TempoTracker) : ℚ := tr.beat_ms / 32

/-- Embeds `TempoTracker.get_next_phrase_start`: next beat-aligned phrase start. -/
def TempoTracker.get_next_phrase_start (tr : TempoTracker) (t_now_ms : ℚ) : ℚ :=
  match tr.t_last_beat with
  | none => t_now_ms
  | some tlb =>
    let slot_ms := tr.get_slot_ms
    let slot_idx_now : ℤ := ⌈(t_now_ms - tlb) / slot_ms⌉
    let next_beat_slot := (slot_idx_now.fdiv 32 + 1) * 32
    tlb + (next_beat_slot : ℚ) * slot_ms

/-- The state invariant of claim C4: BPM clamped in `[60, 200]` with
`beat_ms` derived from it, under the source's default clamp bounds. -/
abbrev tempoInv (tr : TempoTracker) : Prop :=
  60 ≤ tr.bpm ∧ tr.bpm ≤ 200 ∧ tr.beat_ms = 60000 / tr.bpm ∧
    tr.min_bpm = 60 ∧ tr.max_bpm = 200

/-- C1: for every server time `t_now`, if the tracker has observed at least one
canonical event (`t_last_beat = some tlb`) then `get_next_phrase_start t_now`
is strictly greater than `t_now` and equals `tlb + m * 32 * slot_ms` for some
integer `m`; if `t_last_beat` is `none` it returns `t_now` unchanged. -/
theorem c1_get_next_phrase_start_aligned (tr : TempoTracker) (t_now tlb : ℚ)
    (hb : 0 < tr.beat_ms) :
    (tr.t_last_beat = none → tr.get_next_phrase_start t_now = t_now) ∧
    (tr.t_last_beat = some tlb →
      t_now < tr.get_next_phrase_start t_now ∧
      ∃ m : ℤ, tr.get_next_phrase_start t_now
        = tlb + (m : ℚ) * 32 * (tr.beat_ms / 32)) := by
  constructor
  · intro h
    simp [TempoTracker.get_next_phrase_start, h]
  · intro h
    have hslot : 0 < tr.beat_ms / 32 := by positivity
    have h1 : (t_now - tlb) / (tr.beat_ms / 32)
        ≤ ((⌈(t_now - tlb) / (tr.beat_ms / 32)⌉ : ℤ) : ℚ) := Int.le_ceil _
    set idx : ℤ := ⌈(t_now - tlb) / (tr.beat_ms / 32)⌉ with hidx
    have h2 : t_now - tlb ≤ (idx : ℚ) * (tr.beat_ms / 32) := by
      rwa [div_le_iff₀ hslot] at h1
    have h3 : idx + 1 ≤ (idx.fdiv 32 + 1) * 32 := by
      rw [Int.fdiv_eq_ediv _ (by norm_num)]
      omega
    have h4 : ((idx : ℚ) + 1) * (tr.beat_ms / 32)
        ≤ (((idx.fdiv 32 + 1) * 32 : ℤ) : ℚ) * (tr.beat_ms / 32) := by
      apply mul_le_mul_of_nonneg_right _ hslot.le
      exact_mod_cast h3
    have hval : tr.get_next_phrase_start t_now
        = tlb + (((idx.fdiv 32 + 1) * 32 : ℤ) : ℚ) * (tr.beat_ms / 32) := by
      simp only [TempoTracker.get_next_phrase_start, h, TempoTracker.get_slot_ms, ← hidx]
    constructor
    · rw [hval]
      nlinarith
    · refine ⟨idx.fdiv 32 + 1, ?_⟩
      rw [hval]
      push_cast
      ring

/-- A concrete tracker state that has observed one event (for witnesses). -/
def sampleTracker : TempoTracker :=
  { bpm := 120, beat_ms := 500, t_last_beat := some 0, phase_gain := 1/5,
    tempo_gain := 1/1000, min_bpm := 60, max_bpm := 200 }

/-- Witness for C1 at a concrete tracker state. -/
theorem c1_get_next_phrase_start_aligned_witness :
    (0 : ℚ) < sampleTracker.beat_ms ∧
    ((sampleTracker.t_last_beat = none → sampleTracker.get_next_phrase_start 137 = 137) ∧
    (sampleTracker.t_last_beat = some 0 →
      (137 : ℚ) < sampleTracker.get_next_phrase_start 137 ∧
      ∃ m : ℤ, sampleTracker.get_next_phrase_start 137
        = 0 + (m : ℚ) * 32 * (sampleTracker.beat_ms / 32))) :=
  ⟨by norm_num [sampleTracker],
   c1_get_next_phrase_start_aligned sampleTracker 137 0 (by norm_num [sampleTracker])⟩

/-- A single `TempoTracker.update` preserves the BPM clamp invariant. -/
lemma tempoInv_update (tr : TempoTracker) (e : CanonicalEvent) (h : tempoInv tr) :
    tempoInv (tr.update e) := by
  obtain ⟨h1, h2, h3, h4, h5⟩ := h
  unfold TempoTracker.update
  cases htl : tr.t_last_beat with
  | none => exact ⟨h1, h2, h3, h4, h5⟩
  | some tlb =>
    simp only
    split
    · refine ⟨?_, ?_, rfl, h4, h5⟩
      · rw [h4]
        exact le_max_left _ _
      · rw [h4, h5]
        exact max_le (by norm_num) (min_le_left _ _)
    · exact ⟨h1, h2, h3, h4, h5⟩

/-- C4: feeding any sequence of canonical events to `TempoTracker.update`
keeps `bpm` within `[60, 200]` and `beat_ms = 60000 / bpm`, provided the
initial state satisfies the clamp invariant. -/
theorem c4_tempo_clamp_invariant (tr : TempoTracker) (events : List CanonicalEvent)
    (h : tempoInv tr) :
    60 ≤ (events.foldl TempoTracker.update tr).bpm ∧
    (events.foldl TempoTracker.update tr).bpm ≤ 200 ∧
    (events.foldl TempoTracker.update tr).beat_ms
      = 60000 / (events.foldl TempoTracker.update tr).bpm := by
  have hinv : tempoInv (events.foldl TempoTracker.update tr) := by
    induction events generalizing tr with
    | nil => exact h
    | cons e es ih => exact ih _ (tempoInv_update tr e h)
  exact ⟨hinv.1, hinv.2.1, hinv.2.2.1⟩

/-- A concrete canonical event (for witnesses). -/
def sampleEvent (t : ℚ) : CanonicalEvent :=
  { t_server_ms := t, dur_ms := 100, conf := 1, spreadSq := 0, contributors := ["dev"] }

/-- Witness for C4: two events fed to a freshly initialized tracker. -/
theorem c4_tempo_clamp_invariant_witness :
    tempoInv (TempoTracker.init 120 (1/5) (1/1000)) ∧
    (60 ≤ (([sampleEvent 0, sampleEvent 480]).foldl TempoTracker.update
        (TempoTracker.init 120 (1/5) (1/1000))).bpm ∧
     (([sampleEvent 0, sampleEvent 480]).foldl TempoTracker.update
        (TempoTracker.init 120 (1/5) (1/1000))).bpm ≤ 200 ∧
     (([sampleEvent 0, sampleEvent 480]).foldl TempoTracker.update
        (TempoTracker.init 120 (1/5) (1/1000))).beat_ms
       = 60000 / (([sampleEvent 0, sampleEvent 480]).foldl TempoTracker.update
        (TempoTracker.init 120 (1/5) (1/1000))).bpm) :=
  ⟨by with_unfolding_all decide,
   c4_tempo_clamp_invariant (TempoTracker.init 120 (1/5) (1/1000))
     [sampleEvent 0, sampleEvent 480] (by with_unfolding_all decide)⟩

/-! ## DeviceClockSync (`prediction_engine.py` lines 79-155) -/

structure DeviceClockSync where
  alpha : ℚ
  offsets : String → Option ℚ
  drifts : String → Option ℚ
  offset_history : String → List (ℚ × ℚ)
  max_history : ℕ

/-- Embeds `DeviceClockSync.__init__`: empty dicts, `max_history = 50`. -/
def DeviceClockSync.init (alpha : ℚ) : DeviceClockSync :=
  ⟨alpha, fun _ => none, fun _ => none, fun _ => [], 50⟩

/-- Embeds `DeviceClockSync._estimate_drift`: linear drift estimate from the first
and last stored (device-time, raw-offset) samples. -/
def DeviceClockSync.estimate_drift (s : DeviceClockSync) (device_id : String) :
    DeviceClockSync :=
  let history := s.offset_history device_id
  if history.length < 10 then s
  else
    match history.head?, history.getLast? with
    | some first, some last =>
      if 1 < history.length then
        let dt := last.1 - first.1
        if 0 < dt then
          let doffset := last.2 - first.2
          let drift := 1 + doffset / dt * (1/1000)
          { s with drifts := Function.update s.drifts device_id (some drift) }
        else s
      else s
    | _, _ => s

/-- Embeds `DeviceClockSync.update_from_ping`: NTP-like offset update with EMA. -/
def DeviceClockSync.update_from_ping (s : DeviceClockSync) (device_id : String)
    (t0_device t1_server t2_device : ℚ) : DeviceClockSync :=
  let rtt := t2_device - t0_device
  let one_way := rtt / 2
  let new_offset := t1_server - (t0_device + one_way)
  let s1 :=
    match s.offsets device_id with
    | none =>
      { s with offsets := Function.update s.offsets device_id (some new_offset),
               drifts := Function.update s.drifts device_id (some 1),
               offset_history := Function.update s.offset_history device_id [] }
    | some o =>
      let blended := (1 - s.alpha) * o + s.alpha * new_offset
      { s with offsets := Function.update s.offsets device_id (some blended) }
  let hist2 := dequeAppend s1.max_history (s1.offset_history device_id) (t0_device, new_offset)
  let s2 := { s1 with offset_history := Function.update s1.offset_history device_id hist2 }
  if 10 ≤ (s2.offset_history device_id).length then s2.estimate_drift device_id else s2

/-- Embeds `DeviceClockSync.convert_to_server_time`. -/
def DeviceClockSync.convert_to_server_time (s : DeviceClockSync) (device_id : String)
    (t_device_ms : ℚ) : ℚ :=
  match s.offsets device_id with
  | none => t_device_ms
  | some offset =>
    let drift := (s.drifts device_id).getD 1
    drift * t_device_ms + offset

/-- The drift estimation step never changes the stored offsets. -/
lemma estimate_drift_offsets (s : DeviceClockSync) (d : String) :
    (s.estimate_drift d).offsets = s.offsets := by
  unfold DeviceClockSync.estimate_drift
  dsimp only
  repeat' split
  all_goals rfl

/-- C5: the very first ping for a device stores the raw offset
`t1 - (t0 + (t2 - t0)/2)` verbatim; every later ping EMA-blends it with
gain `α = 1/10`. -/
theorem c5_first_ping_offset_verbatim (s : DeviceClockSync) (d : String)
    (t0 t1 t2 o : ℚ) (halpha : s.alpha = 1/10) :
    (s.offsets d = none →
      (s.update_from_ping d t0 t1 t2).offsets d = some (t1 - (t0 + (t2 - t0) / 2))) ∧
    (s.offsets d = some o →
      (s.update_from_ping d t0 t1 t2).offsets d
        = some ((1 - 1/10) * o + (1/10) * (t1 - (t0 + (t2 - t0) / 2)))) := by
  constructor
  · intro h
    unfold DeviceClockSync.update_from_ping
    simp only [h]
    split
    · rw [estimate_drift_offsets]
      simp
    · simp
  · intro h
    unfold DeviceClockSync.update_from_ping
    simp only [h, halpha]
    split
    · rw [estimate_drift_offsets]
      simp
    · simp

/-- Witness for C5 on a freshly initialized clock sync. -/
theorem c5_first_ping_offset_verbatim_witness :
    (DeviceClockSync.init (1/10)).alpha = 1/10 ∧
    (((DeviceClockSync.init (1/10)).offsets "dev" = none →
      ((DeviceClockSync.init (1/10)).update_from_ping "dev" 10 25 14).offsets "dev"
        = some (25 - (10 + (14 - 10) / 2))) ∧
    ((DeviceClockSync.init (1/10)).offsets "dev" = some 0 →
      ((DeviceClockSync.init (1/10)).update_from_ping "dev" 10 25 14).offsets "dev"
        = some ((1 - 1/10) * 0 + (1/10) * (25 - (10 + (14 - 10) / 2))))) :=
  ⟨rfl, c5_first_ping_offset_verbatim (DeviceClockSync.init (1/10)) "dev" 10 25 14 0 rfl⟩

/-! ## EventFusion (`prediction_engine.py` lines 158-233) -/

/-- Event normalized to server time (`ServerEvent` dataclass; the free-form
`quality` metadata map is irrelevant to fusion and omitted). -/
structure ServerEvent where
  t_server_ms : ℚ
  dur_ms : ℚ
  device_id : String
  source_id : Option String
deriving DecidableEq, Repr

/-- Models the contributor tag: `device_id` joined to `source_id` by a colon
when a source is present; an empty source string is falsy in Python, leaving
the bare `device_id`. -/
def contributorTag (e : ServerEvent) : String :=
  match e.source_id with
  | some sid => if sid = "" then e.device_id else e.device_id ++ ":" ++ sid
  | none => e.device_id

/-- Models `np.median` of the cluster timestamps. -/
def clusterMedian (c : List ServerEvent) : ℚ := npMedian (c.map (·.t_server_ms))

structure EventFusion where
  window_ms : ℚ
  clusters : List (List ServerEvent)
  canonical_events : List CanonicalEvent
deriving DecidableEq, Repr

def EventFusion.init (window_ms : ℚ) : EventFusion :=
  { window_ms := window_ms, clusters := [], canonical_events := [] }

/-- Embeds `EventFusion._create_canonical`: medians, member count, population spread
(`spreadSq` is the square of the source's `spread_ms`). -/
def EventFusion.create_canonical (cluster : List ServerEvent) : Option CanonicalEvent :=
  if cluster = [] then none
  else
    let timestamps := cluster.map (·.t_server_ms)
    let durations := cluster.map (·.dur_ms)
    let spreadSq := if 1 < timestamps.length then popVariance timestamps else 0
    some { t_server_ms := npMedian timestamps
           dur_ms := npMedian durations
           conf := cluster.length
           spreadSq := spreadSq
           contributors := cluster.map contributorTag }

/-- The matching loop of `EventFusion.add_event`: append the event to the
first nonempty cluster whose median is within the window, else open a new
single-event cluster at the end of the list. -/
def insertIntoClusters (w : ℚ) (e : ServerEvent) : List (List ServerEvent) → List (List ServerEvent)
  | [] => [[e]]
  | c :: rest =>
    if c ≠ [] ∧ |e.t_server_ms - clusterMedian c| ≤ w then (c ++ [e]) :: rest
    else c :: insertIntoClusters w e rest

/-- The finalization condition of `add_event`: nonempty and the cluster
median lags the incoming event by more than `2 * window_ms`. -/
def clusterReady (w current_time : ℚ) (c : List ServerEvent) : Bool :=
  !c.isEmpty && decide (2 * w < current_time - clusterMedian c)

/-- Embeds `EventFusion.add_event`: insert, finalize stale clusters, return the
first canonical event finalized in this call (with the updated state). -/
def EventFusion.add_event (f : EventFusion) (e : ServerEvent) :
    EventFusion × Option CanonicalEvent :=
  let clusters1 := insertIntoClusters f.window_ms e f.clusters
  let current_time := e.t_server_ms
  let finalized := (clusters1.filter (clusterReady f.window_ms current_time)).filterMap
    EventFusion.create_canonical
  let remaining := clusters1.filter (fun c => !(clusterReady f.window_ms current_time c))
  ({ f with clusters := remaining,
            canonical_events := finalized.foldl (dequeAppend 1000) f.canonical_events },
   finalized.head?)

/-- Concrete server event for the fusion examples. -/
def sev (t : ℚ) (d : String) : ServerEvent :=
  { t_server_ms := t, dur_ms := 10, device_id := d, source_id := none }

/-- C3: a finalized cluster's canonical timestamp/duration are the medians of
its members, `conf` is the member count and the spread is 0 for a single
member (population variance otherwise); concretely, events at `t=100` and
`t=120` with `window_ms = 30` merge into one cluster, events at `t=100` and
`t=160` do not, and a far-future event finalizes the two-member cluster,
returning a canonical event whose timestamp is the median `110`. -/
theorem c3_event_fusion (cluster : List ServerEvent) (c : CanonicalEvent)
    (h : EventFusion.create_canonical cluster = some c) :
    (c.t_server_ms = npMedian (cluster.map (·.t_server_ms)) ∧
     c.dur_ms = npMedian (cluster.map (·.dur_ms)) ∧
     c.conf = cluster.length ∧
     (cluster.length = 1 → c.spreadSq = 0) ∧
     (1 < cluster.length → c.spreadSq = popVariance (cluster.map (·.t_server_ms)))) ∧
    ((((EventFusion.init 30).add_event (sev 100 "a")).1.add_event (sev 120 "b")).1.clusters
       = [[sev 100 "a", sev 120 "b"]] ∧
     (((EventFusion.init 30).add_event (sev 100 "a")).1.add_event (sev 160 "b")).1.clusters
       = [[sev 100 "a"], [sev 160 "b"]] ∧
     ((((EventFusion.init 30).add_event (sev 100 "a")).1.add_event (sev 120 "b")).1.add_event
         (sev 300 "c")).2
       = some { t_server_ms := 110, dur_ms := 10, conf := 2, spreadSq := 100,
                contributors := ["a", "b"] } ∧
     npMedian [100, 120] = 110) := by
  constructor
  · unfold EventFusion.create_canonical at h
    split at h
    · exact absurd h (by simp)
    · rw [Option.some_inj] at h
      subst h
      refine ⟨rfl, rfl, rfl, ?_, ?_⟩
      · intro hlen
        simp [List.length_map, hlen]
      · intro hlen
        simp [List.length_map, hlen]
  · refine ⟨?_, ?_, ?_, ?_⟩ <;> with_unfolding_all decide

/-- Witness for C3 at the concrete two-member cluster. -/
theorem c3_event_fusion_witness :
    EventFusion.create_canonical [sev 100 "a", sev 120 "b"]
      = some { t_server_ms := 110, dur_ms := 10, conf := 2, spreadSq := 100,
               contributors := ["a", "b"] } ∧
    (({ t_server_ms := 110, dur_ms := 10, conf := 2, spreadSq := 100,
        contributors := ["a", "b"] } : CanonicalEvent).t_server_ms
      = npMedian ([sev 100 "a", sev 120 "b"].map (·.t_server_ms))) :=
  ⟨by with_unfolding_all decide,
   ((c3_event_fusion [sev 100 "a", sev 120 "b"] _ (by with_unfolding_all decide)).1).1⟩

/-! ## GridEncoder (`prediction_engine.py` lines 303-344) -/

structure GridEncoder where
  history_beats : ℕ
  history_slots : ℕ
  hist_onset : List ℚ
  hist_hold : List ℚ
  hist_conf : List ℚ
  hist_start_time : Option ℚ
deriving DecidableEq, Repr

/-- Embeds `GridEncoder.__init__`: three zero-filled arrays of `history_beats * 32`
slots (the deques are created already full at their `maxlen`). -/
def GridEncoder.init (history_beats : ℕ) : GridEncoder :=
  let n := history_beats * 32
  { history_beats := history_beats, history_slots := n,
    hist_onset := List.replicate n 0, hist_hold := List.replicate n 0,
    hist_conf := List.replicate n 0, hist_start_time := none }

/-- The hold-marking loop
`for j in range(s, min(s + dur_slots, history_slots)): hist_hold[j] = 1.0`,
with `cnt` the number of slots to mark. -/
def markHold (l : List ℚ) (s : ℕ) : ℕ → List ℚ
  | 0 => l
  | cnt + 1 => markHold (l.set s 1) (s + 1) cnt

/-- Embeds `GridEncoder.add_event`: anchor the start time on first use, map the
event to slot `s` (banker's rounding, as Python's `round`), silently drop it
when `s` is out of `[0, history_slots)`, otherwise record onset, hold window
and confidence. -/
def GridEncoder.add_event (g : GridEncoder) (event : CanonicalEvent) (slot_ms : ℚ)
    (hist_start_time : ℚ) : GridEncoder :=
  let g1 := match g.hist_start_time with
    | none => { g with hist_start_time := some hist_start_time }
    | some _ => g
  let s : ℤ := roundHalfEven ((event.t_server_ms - hist_start_time) / slot_ms)
  if 0 ≤ s ∧ s < (g1.history_slots : ℤ) then
    let sn := s.toNat
    let dur_slots : ℤ := max 1 (roundHalfEven (event.dur_ms / slot_ms))
    let stop := min (sn + dur_slots.toNat) g1.history_slots
    { g1 with hist_onset := g1.hist_onset.set sn 1,
              hist_hold := markHold g1.hist_hold sn (stop - sn),
              hist_conf := g1.hist_conf.set sn (min 1 ((event.conf : ℚ) / 5)) }
  else g1

lemma roundHalfEven_intCast (n : ℤ) : roundHalfEven (n : ℚ) = n := by
  unfold roundHalfEven
  rw [Int.floor_intCast]
  norm_num

lemma markHold_length (l : List ℚ) (s cnt : ℕ) : (markHold l s cnt).length = l.length := by
  induction cnt generalizing l s with
  | zero => rfl
  | succ n ih => rw [markHold, ih, List.length_set]

lemma getD_set_one_keeps (l : List ℚ) (n k : ℕ) (h : l.getD k 0 = 1) :
    (l.set n 1).getD k 0 = 1 := by
  by_cases hnk : n = k
  · subst hnk
    have hk : n < l.length := by
      by_contra hk
      rw [List.getD_eq_default _ _ (by omega)] at h
      norm_num at h
    simp [List.getD_eq_getElem?_getD, List.getElem?_set_self, hk]
  · rwa [List.getD_eq_getElem?_getD, List.getElem?_set_ne hnk, ← List.getD_eq_getElem?_getD]

lemma markHold_keeps_one (l : List ℚ) (s cnt : ℕ) (k : ℕ) (h : l.getD k 0 = 1) :
    (markHold l s cnt).getD k 0 = 1 := by
  induction cnt generalizing l s with
  | zero => exact h
  | succ n ih => exact ih _ _ (getD_set_one_keeps l s k h)

/-- Dropping case: `add_event` with an out-of-range slot index leaves all three arrays
untouched (the event is dropped; only the start-time anchor may be set). -/
lemma add_event_out_of_range (g : GridEncoder) (event : CanonicalEvent)
    (slot_ms hist_start_time : ℚ)
    (h : ¬(0 ≤ roundHalfEven ((event.t_server_ms - hist_start_time) / slot_ms) ∧
          roundHalfEven ((event.t_server_ms - hist_start_time) / slot_ms)
            < (g.history_slots : ℤ))) :
    (g.add_event event slot_ms hist_start_time).hist_onset = g.hist_onset ∧
    (g.add_event event slot_ms hist_start_time).hist_hold = g.hist_hold ∧
    (g.add_event event slot_ms hist_start_time).hist_conf = g.hist_conf := by
  unfold GridEncoder.add_event
  cases hst : g.hist_start_time <;> simp only [hst] <;> rw [if_neg h] <;> exact ⟨rfl, rfl, rfl⟩

/-- C9: `add_event` silently drops every event whose slot index is outside
`[0, history_slots)`; an event exactly at `hist_start_time +
history_slots * slot_ms` is dropped while one slot earlier is recorded with
`hist_onset[s] = 1`. -/
theorem c9_grid_boundary (g : GridEncoder) (event : CanonicalEvent)
    (slot_ms hist_start_time : ℚ) (hslot : 0 < slot_ms)
    (hlen : g.hist_onset.length = g.history_slots) :
    (¬(0 ≤ roundHalfEven ((event.t_server_ms - hist_start_time) / slot_ms) ∧
       roundHalfEven ((event.t_server_ms - hist_start_time) / slot_ms)
         < (g.history_slots : ℤ)) →
      (g.add_event event slot_ms hist_start_time).hist_onset = g.hist_onset ∧
      (g.add_event event slot_ms hist_start_time).hist_hold = g.hist_hold ∧
      (g.add_event event slot_ms hist_start_time).hist_conf = g.hist_conf) ∧
    (event.t_server_ms = hist_start_time + (g.history_slots : ℚ) * slot_ms →
      (g.add_event event slot_ms hist_start_time).hist_onset = g.hist_onset ∧
      (g.add_event event slot_ms hist_start_time).hist_hold = g.hist_hold ∧
      (g.add_event event slot_ms hist_start_time).hist_conf = g.hist_conf) ∧
    (event.t_server_ms = hist_start_time + ((g.history_slots : ℚ) - 1) * slot_ms →
      1 ≤ g.history_slots →
      (g.add_event event slot_ms hist_start_time).hist_onset.getD (g.history_slots - 1) 0
        = 1) := by
  refine ⟨add_event_out_of_range g event slot_ms hist_start_time, ?_, ?_⟩
  · intro ht
    apply add_event_out_of_range
    have hs : roundHalfEven ((event.t_server_ms - hist_start_time) / slot_ms)
        = (g.history_slots : ℤ) := by
      rw [ht]
      have : (hist_start_time + (g.history_slots : ℚ) * slot_ms - hist_start_time) / slot_ms
          = ((g.history_slots : ℤ) : ℚ) := by
        push_cast
        field_simp
      rw [this, roundHalfEven_intCast]
    rw [hs]
    omega
  · intro ht hpos
    have hs : roundHalfEven ((event.t_server_ms - hist_start_time) / slot_ms)
        = (g.history_slots : ℤ) - 1 := by
      rw [ht]
      have : (hist_start_time + ((g.history_slots : ℚ) - 1) * slot_ms - hist_start_time) / slot_ms
          = (((g.history_slots : ℤ) - 1 : ℤ) : ℚ) := by
        push_cast
        field_simp
      rw [this, roundHalfEven_intCast]
    have htn : (roundHalfEven ((event.t_server_ms - hist_start_time) / slot_ms)).toNat
        = g.history_slots - 1 := by
      rw [hs]; omega
    have hidx : g.history_slots - 1 < g.hist_onset.length := by omega
    unfold GridEncoder.add_event
    cases hst : g.hist_start_time <;> simp only [hst] <;>
      rw [if_pos (by rw [hs]; omega)] <;> dsimp only <;> rw [htn] <;>
      simp [List.getD_eq_getElem?_getD, List.getElem?_set_self, hidx]

/-- Witness for C9: the default 256-slot encoder, slot 1 ms, anchored at 0. -/
theorem c9_grid_boundary_witness :
    ((0 : ℚ) < 1 ∧ (GridEncoder.init 8).hist_onset.length = (GridEncoder.init 8).history_slots) ∧
    (((GridEncoder.init 8).add_event (sampleEvent 255) 1 0).hist_onset.getD
        ((GridEncoder.init 8).history_slots - 1) 0 = 1) :=
  ⟨⟨by norm_num, by with_unfolding_all decide⟩,
   (c9_grid_boundary (GridEncoder.init 8) (sampleEvent 255) 1 0 (by norm_num)
       (by with_unfolding_all decide)).2.2
     (by with_unfolding_all decide) (by with_unfolding_all decide)⟩

/-- C7 counterexample: the claim says the history arrays "behave as a ring
buffer in which adding new slots evicts the oldest recorded slot data".  In
the code `add_event` never appends to the deques — it only assigns in place
at the computed slot index — so recording a new slot evicts nothing.
Concretely: record slot 0 (`hist_onset[0] = 1`), then record the new slot 5;
the oldest recorded datum `hist_onset[0]` is still `1` (not evicted) and the
array still has length 256. -/
theorem c7_ring_buffer_counterexample :
    ((((GridEncoder.init 8).add_event (sampleEvent 0) 10 0).add_event
        (sampleEvent 50) 10 0).hist_onset.getD 0 0 = 1) ∧
    ((((GridEncoder.init 8).add_event (sampleEvent 0) 10 0).add_event
        (sampleEvent 50) 10 0).hist_onset.getD 5 0 = 1) ∧
    ((((GridEncoder.init 8).add_event (sampleEvent 0) 10 0).add_event
        (sampleEvent 50) 10 0).hist_onset.length = 256) := by
  refine ⟨?_, ?_, ?_⟩ <;> with_unfolding_all decide

/-- C7 amended: the three grid history arrays keep their length
(`history_beats * 32`, hence 256 for the default `history_beats = 8`) under
`add_event`, and `add_event` never evicts recorded data: every slot already
holding a recorded onset or hold mark still holds it afterwards (writes are
in place; the deques are allocated at `maxlen` but never appended to). -/
theorem c7_history_arrays_amended (g : GridEncoder) (event : CanonicalEvent)
    (slot_ms hist_start_time : ℚ) (k : ℕ)
    (h1 : g.hist_onset.getD k 0 = 1) (h2 : g.hist_hold.getD k 0 = 1) :
    (GridEncoder.init 8).hist_onset.length = 256 ∧
    (GridEncoder.init 8).hist_hold.length = 256 ∧
    (GridEncoder.init 8).hist_conf.length = 256 ∧
    (g.add_event event slot_ms hist_start_time).hist_onset.length = g.hist_onset.length ∧
    (g.add_event event slot_ms hist_start_time).hist_hold.length = g.hist_hold.length ∧
    (g.add_event event slot_ms hist_start_time).hist_conf.length = g.hist_conf.length ∧
    (g.add_event event slot_ms hist_start_time).hist_onset.getD k 0 = 1 ∧
    (g.add_event event slot_ms hist_start_time).hist_hold.getD k 0 = 1 := by
  refine ⟨by with_unfolding_all decide, by with_unfolding_all decide,
          by with_unfolding_all decide, ?_, ?_, ?_, ?_, ?_⟩ <;>
      unfold GridEncoder.add_event <;>
      cases hst : g.hist_start_time <;> simp only [hst] <;> split
  · simp [List.length_set]
  · rfl
  · simp [List.length_set]
  · rfl
  · exact markHold_length _ _ _
  · rfl
  · exact markHold_length _ _ _
  · rfl
  · simp [List.length_set]
  · rfl
  · simp [List.length_set]
  · rfl
  · exact getD_set_one_keeps _ _ _ h1
  · exact h1
  · exact getD_set_one_keeps _ _ _ h1
  · exact h1
  · exact markHold_keeps_one _ _ _ _ h2
  · exact h2
  · exact markHold_keeps_one _ _ _ _ h2
  · exact h2

/-- Witness for C7's amended statement at a grid state with slot 0 recorded. -/
theorem c7_history_arrays_amended_witness :
    (((GridEncoder.init 8).add_event (sampleEvent 0) 10 0).hist_onset.getD 0 0 = 1 ∧
     ((GridEncoder.init 8).add_event (sampleEvent 0) 10 0).hist_hold.getD 0 0 = 1) ∧
    ((((GridEncoder.init 8).add_event (sampleEvent 0) 10 0).add_event
        (sampleEvent 50) 10 0).hist_onset.getD 0 0 = 1 ∧
     (((GridEncoder.init 8).add_event (sampleEvent 0) 10 0).add_event
        (sampleEvent 50) 10 0).hist_hold.getD 0 0 = 1) :=
  ⟨⟨by with_unfolding_all decide, by with_unfolding_all decide⟩,
   ⟨((c7_history_arrays_amended ((GridEncoder.init 8).add_event (sampleEvent 0) 10 0)
        (sampleEvent 50) 10 0 0 (by with_unfolding_all decide)
        (by with_unfolding_all decide)).2.2.2.2.2.2).1,
    ((c7_history_arrays_amended ((GridEncoder.init 8).add_event (sampleEvent 0) 10 0)
        (sampleEvent 50) 10 0 0 (by with_unfolding_all decide)
        (by with_unfolding_all decide)).2.2.2.2.2.2).2⟩⟩

/-! ## SlotPriorModel and BootstrapPhrasePredictor (`slot_prior_model.py`) -/

/-- The three prior arrays of `SlotPriorModel` (`p_onset`, `median_dur_slots`,
`confidence`, each of length 32).  In the source they start as `None` and are
always assigned together by `update_from_patterns`, so they are grouped under
one `Option`. -/
structure SlotPriorData where
  p_onset : Fin 32 → ℚ
  median_dur_slots : Fin 32 → ℤ
  confidence : Fin 32 → ℚ
deriving DecidableEq

structure SlotPriorModel where
  threshold : ℚ
  priors : Option SlotPriorData
  sample_count : ℕ
deriving DecidableEq

/-- Embeds `SlotPriorModel.is_ready`. -/
def SlotPriorModel.is_ready (m : SlotPriorModel) : Bool :=
  m.priors.isSome && decide (0 < m.sample_count)

/-- Embeds `SlotPriorModel.get_prior`: `(0, 1, 0)` when not ready, otherwise the
stored priors at `slot_index % 32`. -/
def SlotPriorModel.get_prior (m : SlotPriorModel) (slot_index : ℕ) : ℚ × ℤ × ℚ :=
  match m.priors with
  | none => (0, 1, 0)
  | some p =>
    if m.sample_count = 0 then (0, 1, 0)
    else
      let idx : Fin 32 := ⟨slot_index % 32, Nat.mod_lt _ (by norm_num)⟩
      (p.p_onset idx, p.median_dur_slots idx, p.confidence idx)

/-- Embeds `BootstrapPhrasePredictor`: a slot-prior model plus an activation
threshold (the constructor default 0.5 always overrides the model's). -/
structure BootstrapPhrasePredictor where
  model : SlotPriorModel
  threshold : ℚ
deriving DecidableEq

/-- Embeds `BootstrapPhrasePredictor.predict_phrase`: all-zero triple when the model
is not ready; otherwise, for each of the 128 slots, onset fires iff the prior
`p_onset` at `slot % 32` strictly exceeds the threshold, with duration
`max 1 median_dur`, and confidence copied through unconditionally. -/
def BootstrapPhrasePredictor.predict_phrase (bp : BootstrapPhrasePredictor) :
    List ℚ × List ℤ × List ℚ :=
  if bp.model.is_ready = false then
    (List.replicate 128 0, List.replicate 128 0, List.replicate 128 0)
  else
    (List.ofFn (fun i : Fin 128 =>
        if bp.threshold < (bp.model.get_prior (i.val % 32)).1 then (1 : ℚ) else 0),
     List.ofFn (fun i : Fin 128 =>
        if bp.threshold < (bp.model.get_prior (i.val % 32)).1 then
          max 1 (bp.model.get_prior (i.val % 32)).2.1
        else 0),
     List.ofFn (fun i : Fin 128 => (bp.model.get_prior (i.val % 32)).2.2))

/-- The concrete priors of the C8 example: `p_onset > 1/2` exactly at slot
positions 0, 5, 10, with median durations 2, 1, 3. -/
def examplePriorData : SlotPriorData :=
  { p_onset := fun j =>
      if j.val = 0 then 3/5 else if j.val = 5 then 7/10 else if j.val = 10 then 4/5 else 1/5
    median_dur_slots := fun j =>
      if j.val = 0 then 2 else if j.val = 5 then 1 else if j.val = 10 then 3 else 1
    confidence := fun j =>
      if j.val = 0 then 3/5 else if j.val = 5 then 7/10 else if j.val = 10 then 4/5 else 1/5 }

def exampleBootstrap : BootstrapPhrasePredictor :=
  { model := { threshold := 1/2, priors := some examplePriorData, sample_count := 4 },
    threshold := 1/2 }

set_option maxHeartbeats 2000000 in
/-- C8: when the model is ready, `predict_phrase` is deterministic and
32-periodic — slot `i` reads the prior at `i % 32`, fires onset with duration
`max 1 median_dur` exactly when `p_onset` strictly exceeds the threshold, and
copies confidence through regardless; on the concrete priors above (onsets
only at positions 0, 5, 10 with durations 2, 1, 3) the onsets land exactly at
{0,5,10} + 32·{0,1,2,3} with matching durations and zero elsewhere. -/
theorem c8_bootstrap_determinism (bp : BootstrapPhrasePredictor)
    (hready : bp.model.is_ready = true) :
    (bp.predict_phrase.1 = List.ofFn (fun i : Fin 128 =>
        if bp.threshold < (bp.model.get_prior (i.val % 32)).1 then (1 : ℚ) else 0) ∧
     bp.predict_phrase.2.1 = List.ofFn (fun i : Fin 128 =>
        if bp.threshold < (bp.model.get_prior (i.val % 32)).1 then
          max 1 (bp.model.get_prior (i.val % 32)).2.1
        else 0) ∧
     bp.predict_phrase.2.2 = List.ofFn (fun i : Fin 128 =>
        (bp.model.get_prior (i.val % 32)).2.2)) ∧
    (exampleBootstrap.predict_phrase.1 = List.ofFn (fun i : Fin 128 =>
        if i.val % 32 = 0 ∨ i.val % 32 = 5 ∨ i.val % 32 = 10 then (1 : ℚ) else 0) ∧
     exampleBootstrap.predict_phrase.2.1 = List.ofFn (fun i : Fin 128 =>
        if i.val % 32 = 0 then (2 : ℤ) else if i.val % 32 = 5 then 1
        else if i.val % 32 = 10 then 3 else 0)) := by
  constructor
  · unfold BootstrapPhrasePredictor.predict_phrase
    rw [hready]
    exact ⟨rfl, rfl, rfl⟩
  · constructor <;> with_unfolding_all decide

/-- Witness for C8 on the concrete example predictor. -/
theorem c8_bootstrap_determinism_witness :
    exampleBootstrap.model.is_ready = true ∧
    exampleBootstrap.predict_phrase.2.2 = List.ofFn (fun i : Fin 128 =>
      (exampleBootstrap.model.get_prior (i.val % 32)).2.2) :=
  ⟨by with_unfolding_all decide,
   ((c8_bootstrap_determinism exampleBootstrap (by with_unfolding_all decide)).1).2.2⟩

/-! ## Overlap constraint (`PredictionEngine._apply_constraints`, lines 632-649) -/

/-- State of the `_apply_constraints` loop: the `hold` bitmap and the two
arrays edited in place (modelled pointwise as functions). -/
structure CState where
  hold : ℕ → Bool
  onset : ℕ → ℚ
  dur : ℕ → ℤ

/-- One iteration of the `_apply_constraints` loop at slot `i`: a surviving
onset marks its hold window `[i, min(i + max 1 dur, 128))`; an onset landing
on a held slot is dropped (`onset[i] = 0`, `dur_slots[i] = 0`). -/
def constraintStep (st : CState) (i : ℕ) : CState :=
  if 1/2 < st.onset i then
    if st.hold i = false then
      let d := max 1 (st.dur i)
      { st with hold := fun k =>
          if i ≤ k ∧ (k : ℤ) < min ((i : ℤ) + d) 128 then true else st.hold k }
    else
      { st with onset := Function.update st.onset i 0, dur := Function.update st.dur i 0 }
  else st

/-- Embeds `PredictionEngine._apply_constraints` over the 128 slots. -/
def applyConstraints (onset : ℕ → ℚ) (dur : ℕ → ℤ) : CState :=
  (List.range 128).foldl constraintStep ⟨fun _ => false, onset, dur⟩

/-- Loop invariant after processing slots `0..n-1`: (1) every slot covered by
a surviving onset's window is marked held; (2) slots `≥ n` are untouched;
(3) no surviving onset below `n` lies in an earlier surviving onset's
window. -/
def constraintInv (n : ℕ) (onset₀ : ℕ → ℚ) (dur₀ : ℕ → ℤ) (st : CState) : Prop :=
  (∀ k, k < 128 →
    (∃ j, j < n ∧ 1/2 < st.onset j ∧ j ≤ k ∧ (k : ℤ) < (j : ℤ) + max 1 (st.dur j)) →
    st.hold k = true) ∧
  (∀ m, n ≤ m → st.onset m = onset₀ m ∧ st.dur m = dur₀ m) ∧
  (∀ i j, j < i → i < n → 1/2 < st.onset i → 1/2 < st.onset j →
    ¬((i : ℤ) < (j : ℤ) + max 1 (st.dur j)))

lemma constraintInv_step (n : ℕ) (hn : n < 128) (onset₀ : ℕ → ℚ) (dur₀ : ℕ → ℤ)
    (st : CState) (h : constraintInv n onset₀ dur₀ st) :
    constraintInv (n + 1) onset₀ dur₀ (constraintStep st n) := by
  obtain ⟨hHold, hFrame, hSep⟩ := h
  unfold constraintStep constraintInv
  by_cases hOn : 1/2 < st.onset n
  · rw [if_pos hOn]
    by_cases hHn : st.hold n = false
    · rw [if_pos hHn]
      dsimp only
      refine ⟨?_, ?_, ?_⟩
      · rintro k hk ⟨j, hj, hsurv, hjk, hwin⟩
        by_cases hjn : j = n
        · rw [hjn] at hjk hwin
          rw [if_pos ⟨hjk, lt_min hwin (by exact_mod_cast hk)⟩]
        · have hold_old : st.hold k = true :=
            hHold k hk ⟨j, by omega, hsurv, hjk, hwin⟩
          split
          · rfl
          · exact hold_old
      · intro m hm
        exact hFrame m (by omega)
      · intro a b hba ha hoa hob
        by_cases han : a = n
        · intro hcon
          rw [han] at hcon
          have hht : st.hold n = true :=
            hHold n hn ⟨b, by omega, hob, by omega, hcon⟩
          rw [hHn] at hht
          exact Bool.false_ne_true hht
        · exact hSep a b hba (by omega) hoa hob
    · rw [if_neg hHn]
      dsimp only
      refine ⟨?_, ?_, ?_⟩
      · rintro k hk ⟨j, hj, hsurv, hjk, hwin⟩
        by_cases hjn : j = n
        · rw [hjn, Function.update_same] at hsurv
          norm_num at hsurv
        · rw [Function.update_noteq hjn] at hsurv
          rw [Function.update_noteq hjn] at hwin
          exact hHold k hk ⟨j, by omega, hsurv, hjk, hwin⟩
      · intro m hm
        have hmn : m ≠ n := by omega
        have hfr := hFrame m (by omega)
        rw [Function.update_noteq hmn, Function.update_noteq hmn]
        exact hfr
      · intro a b hba ha hoa hob
        by_cases han : a = n
        · rw [han, Function.update_same] at hoa
          norm_num at hoa
        · have hbn : b ≠ n := by omega
          rw [Function.update_noteq han] at hoa
          rw [Function.update_noteq hbn] at hob
          rw [Function.update_noteq hbn]
          exact hSep a b hba (by omega) hoa hob
  · rw [if_neg hOn]
    refine ⟨?_, ?_, ?_⟩
    · rintro k hk ⟨j, hj, hsurv, hjk, hwin⟩
      have hjn : j ≠ n := by
        intro hjn
        rw [hjn] at hsurv
        exact hOn hsurv
      exact hHold k hk ⟨j, by omega, hsurv, hjk, hwin⟩
    · intro m hm
      exact hFrame m (by omega)
    · intro a b hba ha hoa hob
      by_cases han : a = n
      · rw [han] at hoa
        exact absurd hoa hOn
      · exact hSep a b hba (by omega) hoa hob

lemma constraintInv_foldl (onset₀ : ℕ → ℚ) (dur₀ : ℕ → ℤ) :
    ∀ n, n ≤ 128 →
      constraintInv n onset₀ dur₀
        ((List.range n).foldl constraintStep ⟨fun _ => false, onset₀, dur₀⟩) := by
  intro n
  induction n with
  | zero =>
    intro _
    refine ⟨?_, ?_, ?_⟩
    · rintro k _ ⟨j, hj, _⟩
      omega
    · intro m _
      exact ⟨rfl, rfl⟩
    · intro i j _ hi _ _
      omega
  | succ n ih =>
    intro hn
    rw [List.range_succ, List.foldl_append, List.foldl_cons, List.foldl_nil]
    exact constraintInv_step n (by omega) onset₀ dur₀ _ (ih (by omega))

/-- A step at slot `i` never modifies `onset`/`dur` at another slot `k`. -/
lemma constraintStep_ne (st : CState) (i k : ℕ) (h : i ≠ k) :
    (constraintStep st i).onset k = st.onset k ∧ (constraintStep st i).dur k = st.dur k := by
  unfold constraintStep
  split
  · split
    · exact ⟨rfl, rfl⟩
    · constructor
      · exact Function.update_noteq (Ne.symm h) _ _
      · exact Function.update_noteq (Ne.symm h) _ _
  · exact ⟨rfl, rfl⟩

lemma foldl_constraintStep_ne (l : List ℕ) (st : CState) (k : ℕ) (h : ∀ i ∈ l, i ≠ k) :
    (l.foldl constraintStep st).onset k = st.onset k ∧
    (l.foldl constraintStep st).dur k = st.dur k := by
  induction l generalizing st with
  | nil => exact ⟨rfl, rfl⟩
  | cons a as ih =>
    rw [List.foldl_cons]
    have hstep := constraintStep_ne st a k (h a (List.mem_cons_self a as))
    have hrest := ih (constraintStep st a) (fun i hi => h i (List.mem_cons_of_mem a hi))
    exact ⟨hrest.1.trans hstep.1, hrest.2.trans hstep.2⟩

lemma range128_split2 : List.range 128 = List.range 2 ++ List.range' 2 126 := by
  with_unfolding_all decide

lemma range128_split4 : List.range 128 = List.range 4 ++ List.range' 4 124 := by
  with_unfolding_all decide

/-- The claim C2's concrete input: `onset = [1,1,0,...]`. -/
def exOnsetC2 : ℕ → ℚ := fun k => if k ≤ 1 then 1 else 0

/-- The claim C2's concrete input: `dur_slots = [3,1,0,...]`. -/
def exDurC2 : ℕ → ℤ := fun k => if k = 0 then 3 else if k = 1 then 1 else 0

/-- Witness input: onsets at slots 0 and 3 (the first holds `[0,3)`). -/
def exOnsetC2W : ℕ → ℚ := fun k => if k = 0 ∨ k = 3 then 1 else 0

/-- Witness input durations: 3 slots at slot 0, 2 slots at slot 3. -/
def exDurC2W : ℕ → ℤ := fun k => if k = 0 then 3 else if k = 3 then 2 else 0

/-- C2: after `_apply_constraints`, no surviving onset `i` lies inside the
hold window `[j, j + dur)` of an earlier surviving onset `j < i`; and on the
concrete input `onset = [1,1,0,...]`, `dur_slots = [3,1,0,...]` the second
onset is dropped: `onset[1] = 0` and `dur_slots[1] = 0`. -/
theorem c2_no_overlapping_holds (onset : ℕ → ℚ) (dur : ℕ → ℤ) (i j : ℕ)
    (hj : j < i) (hi : i < 128)
    (hsi : 1/2 < (applyConstraints onset dur).onset i)
    (hsj : 1/2 < (applyConstraints onset dur).onset j) :
    ¬((i : ℤ) < (j : ℤ) + (applyConstraints onset dur).dur j) ∧
    ((applyConstraints exOnsetC2 exDurC2).onset 1 = 0 ∧
     (applyConstraints exOnsetC2 exDurC2).dur 1 = 0) := by
  constructor
  · have hInv : constraintInv 128 onset dur (applyConstraints onset dur) :=
      constraintInv_foldl onset dur 128 le_rfl
    have hsep := hInv.2.2 i j hj hi hsi hsj
    intro hcon
    apply hsep
    have hle : (applyConstraints onset dur).dur j
        ≤ max 1 ((applyConstraints onset dur).dur j) := le_max_right _ _
    omega
  · have hne : ∀ k ∈ List.range' 2 126, k ≠ 1 := by
      intro k hk
      rw [List.mem_range'] at hk
      omega
    constructor
    · show (applyConstraints exOnsetC2 exDurC2).onset 1 = 0
      unfold applyConstraints
      rw [range128_split2, List.foldl_append, (foldl_constraintStep_ne _ _ _ hne).1]
      with_unfolding_all decide
    · show (applyConstraints exOnsetC2 exDurC2).dur 1 = 0
      unfold applyConstraints
      rw [range128_split2, List.foldl_append, (foldl_constraintStep_ne _ _ _ hne).2]
      with_unfolding_all decide

/-- Witness for C2: slot 0 holds `[0,3)`, the onset at slot 3 survives
alongside it. -/
theorem c2_no_overlapping_holds_witness :
    ((0 : ℕ) < 3 ∧ (3 : ℕ) < 128 ∧
     1/2 < (applyConstraints exOnsetC2W exDurC2W).onset 3 ∧
     1/2 < (applyConstraints exOnsetC2W exDurC2W).onset 0) ∧
    (¬((3 : ℤ) < (0 : ℤ) + (applyConstraints exOnsetC2W exDurC2W).dur 0) ∧
     ((applyConstraints exOnsetC2 exDurC2).onset 1 = 0 ∧
      (applyConstraints exOnsetC2 exDurC2).dur 1 = 0)) := by
  have hne3 : ∀ k ∈ List.range' 4 124, k ≠ 3 := by
    intro k hk
    rw [List.mem_range'] at hk
    omega
  have hne0 : ∀ k ∈ List.range' 4 124, k ≠ 0 := by
    intro k hk
    rw [List.mem_range'] at hk
    omega
  have h3 : 1/2 < (applyConstraints exOnsetC2W exDurC2W).onset 3 := by
    unfold applyConstraints
    rw [range128_split4, List.foldl_append, (foldl_constraintStep_ne _ _ _ hne3).1]
    with_unfolding_all decide
  have h0 : 1/2 < (applyConstraints exOnsetC2W exDurC2W).onset 0 := by
    unfold applyConstraints
    rw [range128_split4, List.foldl_append, (foldl_constraintStep_ne _ _ _ hne0).1]
    with_unfolding_all decide
  exact ⟨⟨by norm_num, by norm_num, h3, h0⟩,
    c2_no_overlapping_holds exOnsetC2W exDurC2W 3 0 (by norm_num) (by norm_num) h3 h0⟩

/-! ## DeterministicPredictor and PredictionEngine (`prediction_engine.py`) -/

structure DeterministicPredictor where
  threshold : ℚ
  pattern_ema : Option (List ℚ)
  dur_patterns : ℕ → List ℤ

/-- Embeds `DeterministicPredictor.__init__`. -/
def DeterministicPredictor.init (threshold : ℚ) : DeterministicPredictor :=
  { threshold := threshold, pattern_ema := none, dur_patterns := fun _ => [] }

/-- Embeds `DeterministicPredictor.predict`: seed or EMA-update the onset-density
pattern (α = 0.1, elementwise), keep the last 32 smoothed values as the
one-beat pattern, and tile it over the 128 output slots; an onset fires when
the pattern value strictly exceeds the threshold, its duration is the median
of the recorded durations at that slot position (`int(...)` truncates toward
zero), defaulting to 1.  Returns the updated predictor (the stored EMA) with
the onset and duration arrays; `hist_hold`/`hist_conf` are accepted and
unused, as in the source. -/
def DeterministicPredictor.predict (p : DeterministicPredictor)
    (hist_onset _hist_hold _hist_conf : List ℚ) :
    DeterministicPredictor × List ℚ × List ℤ :=
  let ema := match p.pattern_ema with
    | none => hist_onset
    | some e => List.zipWith (fun a b => (1 - (1 : ℚ)/10) * a + (1/10) * b) e hist_onset
  let pattern_32 := if 32 ≤ ema.length then ema.drop (ema.length - 32) else ema
  let onset := List.ofFn (fun i : Fin 128 =>
    if i.val % 32 < pattern_32.length ∧ p.threshold < pattern_32.getD (i.val % 32) 0
    then (1 : ℚ) else 0)
  let dur := List.ofFn (fun i : Fin 128 =>
    if i.val % 32 < pattern_32.length ∧ p.threshold < pattern_32.getD (i.val % 32) 0
    then (if p.dur_patterns (i.val % 32) ≠ [] then
            truncQ (npMedian ((p.dur_patterns (i.val % 32)).map (fun z => (z : ℚ))))
          else 1)
    else 0)
  ({ p with pattern_ema := some ema }, onset, dur)

/-- Embeds the `PhraseOutput` dataclass. -/
structure PhraseOutput where
  phrase_start_server_ms : ℚ
  bpm : ℚ
  slot_ms : ℚ
  slots_per_beat : ℕ
  phrase_beats : ℕ
  onset : List ℚ
  dur_slots : List ℤ
  confidence : List ℚ

inductive PredictionMode
  | BOOTSTRAP
  | REALTIME
  | DETERMINISTIC
  | TCN
  | GRU
deriving DecidableEq

/-- Embeds the `PredictionEngine` state (the lock and the diagnostic trace buffer are
concurrency/observability plumbing with no effect on prediction). -/
structure PredictionEngine where
  mode : PredictionMode
  clock_sync : DeviceClockSync
  event_fusion : EventFusion
  tempo_tracker : TempoTracker
  grid_encoder : GridEncoder
  predictor : DeterministicPredictor
  bootstrap_predictor : Option BootstrapPhrasePredictor

/-- Embeds `PredictionEngine._predict_bootstrap`. -/
def PredictionEngine.predictBootstrap (eng : PredictionEngine) (server_time_ms : ℚ)
    (bpm? : Option ℚ) : Option PhraseOutput :=
  match eng.bootstrap_predictor with
  | none => none
  | some bp =>
    let bpm := match bpm? with
      | some b => b
      | none => if eng.tempo_tracker.bpm ≠ 0 then eng.tempo_tracker.bpm else 120
    let beat_ms := 60000 / bpm
    let slot_ms := beat_ms / 32
    let pred := bp.predict_phrase
    let phrase_start0 := server_time_ms + beat_ms * (1/2)
    let beats_from_now : ℤ := ⌈(phrase_start0 - server_time_ms) / beat_ms⌉
    let phrase_start := server_time_ms + (beats_from_now : ℚ) * beat_ms
    some { phrase_start_server_ms := phrase_start, bpm := bpm, slot_ms := slot_ms,
           slots_per_beat := 32, phrase_beats := 4,
           onset := pred.1, dur_slots := pred.2.1, confidence := pred.2.2 }

/-- Embeds `PredictionEngine._predict_realtime`: `none` with no tempo lock,
otherwise the deterministic prediction with the overlap constraint applied
(also returns the engine with the updated predictor EMA). -/
def PredictionEngine.predictRealtime (eng : PredictionEngine) (server_time_ms : ℚ) :
    PredictionEngine × Option PhraseOutput :=
  match eng.tempo_tracker.t_last_beat with
  | none => (eng, none)
  | some _ =>
    let phrase_start := eng.tempo_tracker.get_next_phrase_start server_time_ms
    let ho := eng.grid_encoder.hist_onset
    let hh := eng.grid_encoder.hist_hold
    let hc := eng.grid_encoder.hist_conf
    let res := eng.predictor.predict ho hh hc
    let confidence := if 32 ≤ hc.length then
        let pattern_conf := hc.drop (hc.length - 32)
        List.ofFn (fun i : Fin 128 =>
          if i.val % 32 < pattern_conf.length then pattern_conf.getD (i.val % 32) 0
          else 1/2)
      else List.replicate 128 (1/2)
    let st := applyConstraints (fun i => res.2.1.getD i 0) (fun i => res.2.2.getD i 0)
    ({ eng with predictor := res.1 },
     some { phrase_start_server_ms := phrase_start, bpm := eng.tempo_tracker.bpm,
            slot_ms := eng.tempo_tracker.get_slot_ms, slots_per_beat := 32,
            phrase_beats := 4,
            onset := List.ofFn (fun i : Fin 128 => st.onset i.val),
            dur_slots := List.ofFn (fun i : Fin 128 => st.dur i.val),
            confidence := confidence })

/-- Embeds `PredictionEngine.predict_phrase`: dispatch on the mode — the bootstrap
branch when the mode is BOOTSTRAP and a bootstrap predictor is attached,
the realtime path otherwise (REALTIME or any other mode falls back). -/
def PredictionEngine.predict_phrase (eng : PredictionEngine) (server_time_ms : ℚ)
    (bpm? : Option ℚ) : PredictionEngine × Option PhraseOutput :=
  if eng.mode = PredictionMode.BOOTSTRAP ∧ eng.bootstrap_predictor.isSome = true then
    (eng, eng.predictBootstrap server_time_ms bpm?)
  else
    eng.predictRealtime server_time_ms

/-- C6: `predict_phrase` returns `none` exactly when the realtime path runs
(the bootstrap branch is not taken) and no tempo lock exists
(`t_last_beat = none`); in BOOTSTRAP mode with an attached predictor whose
model has no data (`sample_count = 0`) it instead returns a phrase with
all-zero onset, duration and confidence arrays. -/
theorem c6_predict_phrase_none_vs_zero (eng : PredictionEngine) (t : ℚ) (b : Option ℚ)
    (bp : BootstrapPhrasePredictor) (hmode : eng.mode = PredictionMode.BOOTSTRAP)
    (hbp : eng.bootstrap_predictor = some bp) (hcount : bp.model.sample_count = 0) :
    (∃ ph : PhraseOutput, (eng.predict_phrase t b).2 = some ph ∧
       ph.onset = List.replicate 128 0 ∧ ph.dur_slots = List.replicate 128 0 ∧
       ph.confidence = List.replicate 128 0) ∧
    (∀ (eng2 : PredictionEngine) (t2 : ℚ) (b2 : Option ℚ),
       (eng2.predict_phrase t2 b2).2 = none ↔
         (¬(eng2.mode = PredictionMode.BOOTSTRAP ∧ eng2.bootstrap_predictor.isSome = true) ∧
          eng2.tempo_tracker.t_last_beat = none)) := by
  constructor
  · have hready : bp.model.is_ready = false := by
      unfold SlotPriorModel.is_ready
      rw [hcount]
      simp
    have hzero : bp.predict_phrase =
        (List.replicate 128 0, List.replicate 128 0, List.replicate 128 0) := by
      unfold BootstrapPhrasePredictor.predict_phrase
      rw [hready, if_pos rfl]
    unfold PredictionEngine.predict_phrase
    rw [if_pos ⟨hmode, by rw [hbp]; rfl⟩]
    unfold PredictionEngine.predictBootstrap
    rw [hbp]
    dsimp only
    rw [hzero]
    exact ⟨_, rfl, rfl, rfl, rfl⟩
  · intro eng2 t2 b2
    unfold PredictionEngine.predict_phrase
    by_cases hc : eng2.mode = PredictionMode.BOOTSTRAP ∧ eng2.bootstrap_predictor.isSome = true
    · rw [if_pos hc]
      obtain ⟨bp2, hbp2⟩ := Option.isSome_iff_exists.mp hc.2
      unfold PredictionEngine.predictBootstrap
      rw [hbp2]
      dsimp only
      constructor
      · intro hfalse
        simp at hfalse
      · rintro ⟨hnp, _⟩
        exact absurd ⟨hc.1, rfl⟩ hnp
    · rw [if_neg hc]
      unfold PredictionEngine.predictRealtime
      cases htl : eng2.tempo_tracker.t_last_beat with
      | none =>
        dsimp only
        constructor
        · intro _
          exact ⟨hc, rfl⟩
        · intro _
          rfl
      | some tlb =>
        dsimp only
        constructor
        · intro hfalse
          exact absurd hfalse (Option.some_ne_none _)
        · rintro ⟨_, hnone⟩
          exact absurd hnone (Option.some_ne_none _)

/-- Bootstrap predictor over an empty model (no priors, zero samples). -/
def emptyPriorBootstrap : BootstrapPhrasePredictor :=
  { model := { threshold := 1/2, priors := none, sample_count := 0 }, threshold := 1/2 }

/-- Engine in BOOTSTRAP mode attached to the empty-model predictor. -/
def sampleEngineEmpty : PredictionEngine :=
  { mode := PredictionMode.BOOTSTRAP, clock_sync := DeviceClockSync.init (1/10),
    event_fusion := EventFusion.init 30,
    tempo_tracker := TempoTracker.init 120 (1/5) (1/1000),
    grid_encoder := GridEncoder.init 8, predictor := DeterministicPredictor.init (1/2),
    bootstrap_predictor := some emptyPriorBootstrap }

/-- Witness for C6 on the empty-model bootstrap engine. -/
theorem c6_predict_phrase_none_vs_zero_witness :
    (sampleEngineEmpty.mode = PredictionMode.BOOTSTRAP ∧
     sampleEngineEmpty.bootstrap_predictor = some emptyPriorBootstrap ∧
     emptyPriorBootstrap.model.sample_count = 0) ∧
    ((∃ ph : PhraseOutput, (sampleEngineEmpty.predict_phrase 100 none).2 = some ph ∧
        ph.onset = List.replicate 128 0 ∧ ph.dur_slots = List.replicate 128 0 ∧
        ph.confidence = List.replicate 128 0) ∧
     (∀ (eng2 : PredictionEngine) (t2 : ℚ) (b2 : Option ℚ),
        (eng2.predict_phrase t2 b2).2 = none ↔
          (¬(eng2.mode = PredictionMode.BOOTSTRAP ∧ eng2.bootstrap_predictor.isSome = true) ∧
           eng2.tempo_tracker.t_last_beat = none))) :=
  ⟨⟨rfl, rfl, rfl⟩,
   c6_predict_phrase_none_vs_zero sampleEngineEmpty 100 none emptyPriorBootstrap rfl rfl rfl⟩

/-- C10: in BOOTSTRAP mode with an attached, ready predictor and a positive
BPM override, the returned `phrase_start_server_ms` always equals
`server_time_ms` plus exactly one beat (`60000 / bpm`): the internal snap
(start half a beat ahead, then ceil to whole beats) always yields
`beats_from_now = 1`. -/
theorem c10_bootstrap_one_beat_ahead (eng : PredictionEngine) (t bv : ℚ)
    (bp : BootstrapPhrasePredictor) (hmode : eng.mode = PredictionMode.BOOTSTRAP)
    (hbp : eng.bootstrap_predictor = some bp) (hready : bp.model.is_ready = true)
    (hpos : 0 < bv) :
    ((eng.predict_phrase t (some bv)).2.map (fun ph => ph.phrase_start_server_ms))
      = some (t + 60000 / bv) := by
  unfold PredictionEngine.predict_phrase
  rw [if_pos ⟨hmode, by rw [hbp]; rfl⟩]
  unfold PredictionEngine.predictBootstrap
  rw [hbp]
  dsimp only [Option.map]
  have hbeat : (0 : ℚ) < 60000 / bv := by positivity
  have harg : (t + 60000 / bv * (1/2) - t) / (60000 / bv) = 1/2 := by
    rw [add_sub_cancel_left, mul_div_cancel_left₀ _ hbeat.ne']
  rw [harg]
  have hceil : (⌈(1 : ℚ)/2⌉ : ℤ) = 1 := by
    rw [Int.ceil_eq_iff]
    norm_num
  rw [hceil]
  norm_num

/-- Engine in BOOTSTRAP mode attached to the ready example predictor. -/
def sampleEngineReady : PredictionEngine :=
  { mode := PredictionMode.BOOTSTRAP, clock_sync := DeviceClockSync.init (1/10),
    event_fusion := EventFusion.init 30,
    tempo_tracker := TempoTracker.init 120 (1/5) (1/1000),
    grid_encoder := GridEncoder.init 8, predictor := DeterministicPredictor.init (1/2),
    bootstrap_predictor := some exampleBootstrap }

/-- Witness for C10 at `t = 100`, BPM override 120 (one beat = 500 ms). -/
theorem c10_bootstrap_one_beat_ahead_witness :
    (sampleEngineReady.mode = PredictionMode.BOOTSTRAP ∧
     sampleEngineReady.bootstrap_predictor = some exampleBootstrap ∧
     exampleBootstrap.model.is_ready = true ∧ (0 : ℚ) < 120) ∧
    ((sampleEngineReady.predict_phrase 100 (some 120)).2.map
        (fun ph => ph.phrase_start_server_ms)) = some (100 + 60000 / 120) :=
  ⟨⟨rfl, rfl, by with_unfolding_all decide, by norm_num⟩,
   c10_bootstrap_one_beat_ahead sampleEngineReady 100 120 exampleBootstrap rfl rfl
     (by with_unfolding_all decide) (by norm_num)⟩

end DiamondDrip
